import Mathlib

/-!
# Verification of the crypto-scanner bot core logic

Shallow embedding of `src/bot.py`: the blockchain address detector
(`detect_blockchain`), the address-format validation gate of
`handle_token_address`, the pair selector (`get_preferred_dex`), the risk
classifier (`analyze_rug_pull_risk`) and the social-mention aggregation
(`fetch_social_media_mentions`), together with theorems settling the frozen
claims about them.

Numeric market fields (liquidity, market cap, FDV, price change) are modelled
as rationals (`ℚ`), standing for the decimal values of the upstream JSON.
Optional JSON fields are modelled as `Option ℚ` with the defaulting performed
exactly where the Python code performs it (`dict.get(key, default)`).
-/

namespace CryptoScanner

/-- A trading-pair record as consumed by the bot: every numeric field is
optional, mirroring `preferred_pair.get(...)` defaulting in `bot.py`.
`priceChange` in the JSON is a nested object with optional `percent` and
`h24` members, read as
`pair.get("priceChange", {}).get("percent", pair.get("priceChange", {}).get("h24", 0))`. -/
structure TradingPair where
  dexId : Option String := none
  priceUsd : Option ℚ := none
  liquidityUsd : Option ℚ := none
  marketCap : Option ℚ := none
  fdv : Option ℚ := none
  priceChangePercent : Option ℚ := none
  priceChangeH24 : Option ℚ := none
  url : Option String := none
deriving Repr, DecidableEq

/-- The empty dict `{}` that `get_preferred_dex` returns for an empty pair
list: every `.get` on it yields the supplied default. -/
def emptyPair : TradingPair := {}

/-- `preferred_pair.get("liquidity", {}).get("usd", 0)`. -/
def TradingPair.liq (p : TradingPair) : ℚ := p.liquidityUsd.getD 0

/-- `preferred_pair.get("marketCap", 0)`. -/
def TradingPair.mcap (p : TradingPair) : ℚ := p.marketCap.getD 0

/-- `preferred_pair.get("fdv", 0)`. -/
def TradingPair.fdvD (p : TradingPair) : ℚ := p.fdv.getD 0

/-- `preferred_pair.get("priceChange", {}).get("percent",
preferred_pair.get("priceChange", {}).get("h24", 0))`: the `percent` member
wins, falling back to `h24`, falling back to `0`. -/
def TradingPair.priceChange (p : TradingPair) : ℚ :=
  p.priceChangePercent.getD (p.priceChangeH24.getD 0)

/-- The six ordered severity tiers of `analyze_rug_pull_risk`, one per
`return` statement, in source order. -/
inductive RiskTier where
  | low
  | moderate
  | high
  | critical
  | extreme
  | lowToModerate
deriving Repr, DecidableEq

/-- Liquidity level readout (Key Factor 1). -/
inductive LiquidityLevel where
  | low | medium | high
deriving Repr, DecidableEq

/-- Market-cap level readout (Key Factor 2). -/
inductive MarketCapLevel where
  | low | medium | high
deriving Repr, DecidableEq

/-- 24H price-change level readout (Key Factor 3). -/
inductive PriceChangeLevel where
  | stable | volatile | negative
deriving Repr, DecidableEq

/-- FDV-vs-market-cap relation readout (Key Factor 4). -/
inductive FdvRelation where
  | balanced | fdvLower | fdvHigher
deriving Repr, DecidableEq

/-- The structured content of the string `analyze_rug_pull_risk` returns: the
chosen tier plus the four factor readouts interpolated into every rationale. -/
structure RiskVerdict where
  tier : RiskTier
  liquidityLevel : LiquidityLevel
  marketCapLevel : MarketCapLevel
  priceChangeLevel : PriceChangeLevel
  fdvRelation : FdvRelation
deriving Repr, DecidableEq

/-- Key Factor 1 of `analyze_rug_pull_risk` (`bot.py` lines 72-77). -/
def liquidityLevelOf (liquidity : ℚ) : LiquidityLevel :=
  if liquidity > 25000 then .high
  else if liquidity ≥ 10000 then .medium
  else .low

/-- Key Factor 2 of `analyze_rug_pull_risk` (`bot.py` lines 79-84). -/
def marketCapLevelOf (marketCap : ℚ) : MarketCapLevel :=
  if marketCap > 250000 then .high
  else if marketCap ≥ 100000 then .medium
  else .low

/-- Key Factor 3 of `analyze_rug_pull_risk` (`bot.py` lines 86-91). -/
def priceChangeLevelOf (priceChange : ℚ) : PriceChangeLevel :=
  if priceChange > 500 then .volatile
  else if priceChange ≤ 0 then .negative
  else .stable

/-- Key Factor 4 of `analyze_rug_pull_risk` (`bot.py` lines 93-98). -/
def fdvRelationOf (fdv marketCap : ℚ) : FdvRelation :=
  if fdv < marketCap then .fdvLower
  else if fdv > marketCap then .fdvHigher
  else .balanced

/-- The tier decision of `analyze_rug_pull_risk` (`bot.py` lines 100-153): the
five guarded `return` statements in source order, then the fallback. -/
def riskTierOf (liquidity priceChange marketCap fdv : ℚ) : RiskTier :=
  if liquidity > 25000 ∧ marketCap > 250000 ∧ priceChange ≤ 50 then .low
  else if liquidity ≥ 10000 ∧ liquidity ≤ 20000 ∧
      (priceChange > 50 ∨ marketCap < 100000) then .moderate
  else if liquidity < 10000 ∨ priceChange ≤ 0 then .high
  else if liquidity < 5000 ∨ fdv < marketCap then .critical
  else if priceChange > 1000 ∨ fdv > marketCap * 2 then .extreme
  else .lowToModerate

/-- `analyze_rug_pull_risk(preferred_pair)`: extract the four numeric factors
with their defaults, compute the four readouts, and pick the tier. -/
def analyze_rug_pull_risk (p : TradingPair) : RiskVerdict :=
  { tier := riskTierOf p.liq p.priceChange p.mcap p.fdvD
    liquidityLevel := liquidityLevelOf p.liq
    marketCapLevel := marketCapLevelOf p.mcap
    priceChangeLevel := priceChangeLevelOf p.priceChange
    fdvRelation := fdvRelationOf p.fdvD p.mcap }

/-! ## Address patterns (`detect_blockchain` and the validation gate) -/

/-- The regex character class `[a-fA-F0-9]`. -/
def isHexChar (c : Char) : Bool :=
  (c ≥ '0' && c ≤ '9') || (c ≥ 'a' && c ≤ 'f') || (c ≥ 'A' && c ≤ 'F')

/-- The regex character class `[1-9A-HJ-NP-Za-km-z]` (base58-like: no `0`,
`O`, `I`, `l`). -/
def isBase58Char (c : Char) : Bool :=
  (c ≥ '1' && c ≤ '9') || (c ≥ 'A' && c ≤ 'H') || (c ≥ 'J' && c ≤ 'N') ||
  (c ≥ 'P' && c ≤ 'Z') || (c ≥ 'a' && c ≤ 'k') || (c ≥ 'm' && c ≤ 'z')

/-- The regex character class `[a-zA-Z0-9]`. -/
def isAlnumChar (c : Char) : Bool :=
  (c ≥ '0' && c ≤ '9') || (c ≥ 'a' && c ≤ 'z') || (c ≥ 'A' && c ≤ 'Z')

/-- Full match of `^0x[a-fA-F0-9]{40}$`. -/
def matchesEthereum (s : String) : Bool :=
  match s.data with
  | '0' :: 'x' :: rest => rest.length == 40 && rest.all isHexChar
  | _ => false

/-- Full match of `^[1-9A-HJ-NP-Za-km-z]{32,44}$`. -/
def matchesSolana (s : String) : Bool :=
  decide (32 ≤ s.data.length) && decide (s.data.length ≤ 44) &&
    s.data.all isBase58Char

/-- Full match of `^[a-zA-Z0-9]{42}$`. -/
def matchesBinance (s : String) : Bool :=
  s.data.length == 42 && s.data.all isAlnumChar

/-- `detect_blockchain(token_address)` (`bot.py` lines 33-44): the four
pattern tests in source order — the fourth (Polygon) test repeats the first
(Ethereum) pattern verbatim, as in the source. -/
def detect_blockchain (token_address : String) : String :=
  if matchesEthereum token_address then "Ethereum"
  else if matchesSolana token_address then "Solana"
  else if matchesBinance token_address then "Binance"
  else if matchesEthereum token_address then "Polygon"
  else "Unknown"

/-- The validation gate of `handle_token_address` (`bot.py` line 408):
`re.match(r"^0x[a-fA-F0-9]{40}$|^[1-9A-HJ-NP-Za-km-z]{32,44}$", addr)` — an
anchored alternation of the Ethereum and Solana patterns. -/
def validTokenAddress (token_address : String) : Bool :=
  matchesEthereum token_address || matchesSolana token_address

/-! ## Pair selector (`get_preferred_dex`) -/

/-- Insertion step of the stable descending sort: walk past elements with a
strictly larger key, so the inserted element lands before every element whose
key ties with or is below its own. -/
def insertByLiqDesc (x : TradingPair) : List TradingPair → List TradingPair
  | [] => [x]
  | y :: l => if x.liq < y.liq then y :: insertByLiqDesc x l else x :: y :: l

/-- `sorted(pairs, key=lambda x: x.get("liquidity", {}).get("usd", 0),
reverse=True)`: Python's `sorted` is a stable sort, so with `reverse=True` its
output is the unique permutation ordered by (key descending, input position
ascending); this right-fold insertion sort produces exactly that
permutation. -/
def sortByLiqDesc : List TradingPair → List TradingPair
  | [] => []
  | x :: xs => insertByLiqDesc x (sortByLiqDesc xs)

/-- `get_preferred_dex(pairs)` (`bot.py` lines 58-63): empty input gives the
empty dict (modelled `none`); otherwise the head of the descending stable
sort. -/
def get_preferred_dex (pairs : List TradingPair) : Option TradingPair :=
  if pairs.isEmpty then none
  else (sortByLiqDesc pairs).head?

/-- State-passing embedding of `get_preferred_dex`: the second component is
the caller's `pairs` list after the call returns. The body only reads `pairs`
(`sorted` allocates a fresh list; there is no in-place `list.sort()` and no
assignment to `pairs` or to any pair's fields), so the list is threaded
through unchanged. -/
def get_preferred_dex_state (pairs : List TradingPair) :
    Option TradingPair × List TradingPair :=
  if pairs.isEmpty then (none, pairs)
  else ((sortByLiqDesc pairs).head?, pairs)

/-- First element of maximal `liq` key, written from the spec's words
("element with maximum `liquidityUsd`, ties broken by input order —
first-seen wins"): scan left to right, replacing the champion only on a
strictly larger key. Used to state what `get_preferred_dex` must return. -/
def firstMaxByLiq : List TradingPair → Option TradingPair
  | [] => none
  | x :: xs =>
    match firstMaxByLiq xs with
    | none => some x
    | some y => if x.liq < y.liq then some y else some x

/-! ## Social-mention aggregation (`fetch_social_media_mentions`) -/

/-- Outcome of `twitter_client.search_recent_tweets(query, max_results=5)`:
the call either raises (`error`) or returns a response whose `.data` is a
list of tweets or `None`. Tweets are opaque (`Unit`). -/
def TwitterResult : Type := Except Unit (Option (List Unit))

/-- Behaviour of the iterator `reddit_client.subreddit("all").search(addr,
limit=5)`: the posts it yields before finishing or raising, and whether it
ends by raising. Posts are opaque (`Unit`). -/
structure RedditStream where
  posts : List Unit
  raised : Bool

/-- The Twitter branch of `fetch_social_media_mentions` (`bot.py` lines
160-166): inside `try`, `mentions_count["Twitter"] = len(tweets.data) if
tweets.data else 0`; an exception is caught and leaves the initial 0. -/
def twitterMentionCount : TwitterResult → Nat
  | .ok (some tweets) => tweets.length
  | .ok none => 0
  | .error _ => 0

/-- `fetch_social_media_mentions` (`bot.py` lines 156-177), returning the
(Twitter, Reddit) counts interpolated into its result string. The Reddit
branch runs `mentions_count["Reddit"] += 1` once per yielded post inside its
own `try`, so an exception is caught and keeps the increments already made. -/
def fetch_social_media_mentions (twitter : TwitterResult)
    (reddit : RedditStream) : Nat × Nat :=
  (twitterMentionCount twitter, reddit.posts.length)

/-! ## The message handler (`handle_token_address`) -/

/-- The external-world inputs one `handle_token_address` call can consume:
what `fetch_dexscreener_data` would return (already `[]` on a network or
parse failure, per its own `except` branch) and what the two mention sources
would do. -/
structure Env where
  dexPairs : List TradingPair
  twitter : TwitterResult
  reddit : RedditStream

/-- Per-user conversation state (`context.user_data`). -/
structure UserData where
  selectedOption : Option String
  tokenAddress : Option String
deriving Repr, DecidableEq

/-- The reply `handle_token_address` sends. Pipeline outputs (selected pair,
verdict, mention counts) appear only in the constructors of the branches
that actually invoked the pipeline. -/
inductive HandlerReply where
  | invalidAddress
  | analyzeReport (pair : Option TradingPair) (verdict : RiskVerdict)
      (mentions : Nat × Nat)
  | rugPullReport (pair : Option TradingPair) (verdict : RiskVerdict)
      (mentions : Nat × Nat)
  | noReply
deriving DecidableEq

/-- `handle_token_address` (`bot.py` lines 404-502, the later definition of
the duplicated pair, which is the one Python keeps): an address failing the
validation regex gets the corrective "Invalid address format" prompt and
nothing else runs; otherwise the address is stored and the selected option
dispatches the pipeline (`fetch_dexscreener_data` → `get_preferred_dex` →
`analyze_rug_pull_risk` → `fetch_social_media_mentions`). A `{}` preferred
pair (no pairs) is fed to the classifier as the all-absent `emptyPair`,
exactly as the Python dict `{}` behaves under `.get`. -/
def handle_token_address (ud : UserData) (addr : String) (env : Env) :
    HandlerReply × UserData :=
  if !validTokenAddress addr then (.invalidAddress, ud)
  else
    let ud' : UserData := { ud with tokenAddress := some addr }
    let preferred := get_preferred_dex env.dexPairs
    let verdict := analyze_rug_pull_risk (preferred.getD emptyPair)
    let mentions := fetch_social_media_mentions env.twitter env.reddit
    if ud.selectedOption = some "analyze_token" then
      (.analyzeReport preferred verdict mentions, ud')
    else if ud.selectedOption = some "rug_pull_scan" then
      (.rugPullReport preferred verdict mentions, ud')
    else (.noReply, ud')

/-! ## Spec-side tier conditions (§4.1 of the spec, for claim C1) -/

/-- Spec rule 1 (Low): liquidity > 25000 AND marketCap > 250000 AND
priceChangePercent24h ≤ 50. -/
def specRule1 (liq mc pc : ℚ) : Prop := 25000 < liq ∧ 250000 < mc ∧ pc ≤ 50

/-- Spec rule 2 (Moderate): 10000 ≤ liquidity ≤ 20000 AND
(priceChangePercent24h > 50 OR marketCap < 100000). -/
def specRule2 (liq mc pc : ℚ) : Prop :=
  10000 ≤ liq ∧ liq ≤ 20000 ∧ (50 < pc ∨ mc < 100000)

/-- Spec rule 3 (High): liquidity < 10000 OR priceChangePercent24h ≤ 0. -/
def specRule3 (liq pc : ℚ) : Prop := liq < 10000 ∨ pc ≤ 0

/-- Spec rule 4 (Critical): liquidity < 5000 OR fdv < marketCap. -/
def specRule4 (liq mc fdv : ℚ) : Prop := liq < 5000 ∨ fdv < mc

/-- Spec rule 5 (Extreme): priceChangePercent24h > 1000 OR
fdv > marketCap × 2. -/
def specRule5 (mc pc fdv : ℚ) : Prop := 1000 < pc ∨ mc * 2 < fdv

end CryptoScanner

namespace CryptoScanner

/-! ## Helper lemmas about the pair selector -/

/-- Head of an insertion step: the inserted element wins unless the previous
head's key is strictly larger. -/
theorem head_insertByLiqDesc (x : TradingPair) (l : List TradingPair) :
    (insertByLiqDesc x l).head? = some (match l.head? with
      | none => x
      | some y => if x.liq < y.liq then y else x) := by
  cases l with
  | nil => rfl
  | cons y l =>
    by_cases hxy : x.liq < y.liq <;> simp [insertByLiqDesc, hxy]

/-- The head of the stable descending sort is the left-to-right champion. -/
theorem head_sortByLiqDesc (l : List TradingPair) :
    (sortByLiqDesc l).head? = firstMaxByLiq l := by
  induction l with
  | nil => rfl
  | cons x xs ih =>
    simp only [sortByLiqDesc, firstMaxByLiq, head_insertByLiqDesc, ih]
    cases h : firstMaxByLiq xs with
    | none => simp
    | some y => by_cases hxy : x.liq < y.liq <;> simp [hxy]

/-- Unfolding equation of `firstMaxByLiq` on a nonempty list. -/
theorem firstMaxByLiq_cons (x : TradingPair) (xs : List TradingPair) :
    firstMaxByLiq (x :: xs) = some (match firstMaxByLiq xs with
      | none => x
      | some y => if x.liq < y.liq then y else x) := by
  simp only [firstMaxByLiq]
  cases firstMaxByLiq xs with
  | none => rfl
  | some y => by_cases hxy : x.liq < y.liq <;> simp [hxy]

/-- The champion is an element of the list. -/
theorem firstMaxByLiq_mem {l : List TradingPair} {p : TradingPair}
    (h : firstMaxByLiq l = some p) : p ∈ l := by
  induction l with
  | nil => simp [firstMaxByLiq] at h
  | cons x xs ih =>
    rw [firstMaxByLiq_cons] at h
    cases hx : firstMaxByLiq xs with
    | none => rw [hx] at h; simp at h; simp [h]
    | some y =>
      rw [hx] at h
      simp only [Option.some_inj] at h
      by_cases hxy : x.liq < y.liq
      · simp [hxy] at h; exact List.mem_cons_of_mem _ (ih (h ▸ hx))
      · simp [hxy] at h; simp [h]

/-- The champion's key dominates every element's key. -/
theorem firstMaxByLiq_maximal {l : List TradingPair} {p : TradingPair}
    (h : firstMaxByLiq l = some p) : ∀ q ∈ l, q.liq ≤ p.liq := by
  induction l generalizing p with
  | nil => simp [firstMaxByLiq] at h
  | cons x xs ih =>
    rw [firstMaxByLiq_cons] at h
    intro q hq
    cases hx : firstMaxByLiq xs with
    | none =>
      cases xs with
      | nil =>
        rw [hx] at h; simp at h hq; simp [hq, h]
      | cons a as =>
        exfalso
        rw [firstMaxByLiq_cons] at hx
        simp at hx
    | some y =>
      rw [hx] at h
      simp only [Option.some_inj] at h
      rcases List.mem_cons.mp hq with rfl | hq'
      · by_cases hxy : q.liq < y.liq
        · simp [hxy] at h; exact le_of_lt (h ▸ hxy)
        · simp [hxy] at h; exact le_of_eq (congrArg TradingPair.liq h)
      · have hym := ih hx q hq'
        by_cases hxy : x.liq < y.liq
        · simp [hxy] at h; exact h ▸ hym
        · simp [hxy] at h
          subst h
          exact hym.trans (le_of_not_lt hxy)

/-- The champion is the first element whose key reaches the champion's key,
i.e. ties go to the earliest occurrence. -/
theorem firstMaxByLiq_find {l : List TradingPair} {p : TradingPair}
    (h : firstMaxByLiq l = some p) :
    l.find? (fun q => decide (p.liq ≤ q.liq)) = some p := by
  induction l generalizing p with
  | nil => simp [firstMaxByLiq] at h
  | cons x xs ih =>
    rw [firstMaxByLiq_cons] at h
    cases hx : firstMaxByLiq xs with
    | none =>
      cases xs with
      | nil =>
        rw [hx] at h; simp at h
        subst h
        simp [List.find?]
      | cons a as =>
        exfalso
        rw [firstMaxByLiq_cons] at hx
        simp at hx
    | some y =>
      rw [hx] at h
      simp only [Option.some_inj] at h
      by_cases hxy : x.liq < y.liq
      · simp [hxy] at h
        subst h
        rw [List.find?_cons_of_neg, ih hx]
        simp [not_le.mpr hxy]
      · simp [hxy] at h
        subst h
        rw [List.find?_cons_of_pos]
        simp

/-- `get_preferred_dex` computes the left-to-right champion. -/
theorem get_preferred_dex_eq_firstMax (l : List TradingPair) :
    get_preferred_dex l = firstMaxByLiq l := by
  cases l with
  | nil => rfl
  | cons x xs => simp [get_preferred_dex, head_sortByLiqDesc]

end CryptoScanner

namespace CryptoScanner

/-! ## Claim theorems -/

/-- Claim C1: the risk classifier is a pure total function — for every
4-tuple of non-negative numeric inputs (liquidity, marketCap,
priceChangePercent24h, fdv), 0 substituted for absent fields, it returns
exactly one of the six tiers, chosen by evaluating the six spec-order tier
conditions with first match winning, and it has no error path (it is a total
Lean function into `RiskVerdict`). -/
theorem riskTier_first_match (p : TradingPair)
    (_hliq : 0 ≤ p.liq) (_hmc : 0 ≤ p.mcap)
    (_hpc : 0 ≤ p.priceChange) (_hfdv : 0 ≤ p.fdvD) :
    ((analyze_rug_pull_risk p).tier = .low ↔
      specRule1 p.liq p.mcap p.priceChange) ∧
    ((analyze_rug_pull_risk p).tier = .moderate ↔
      ¬ specRule1 p.liq p.mcap p.priceChange ∧
        specRule2 p.liq p.mcap p.priceChange) ∧
    ((analyze_rug_pull_risk p).tier = .high ↔
      ¬ specRule1 p.liq p.mcap p.priceChange ∧
      ¬ specRule2 p.liq p.mcap p.priceChange ∧
        specRule3 p.liq p.priceChange) ∧
    ((analyze_rug_pull_risk p).tier = .critical ↔
      ¬ specRule1 p.liq p.mcap p.priceChange ∧
      ¬ specRule2 p.liq p.mcap p.priceChange ∧
      ¬ specRule3 p.liq p.priceChange ∧
        specRule4 p.liq p.mcap p.fdvD) ∧
    ((analyze_rug_pull_risk p).tier = .extreme ↔
      ¬ specRule1 p.liq p.mcap p.priceChange ∧
      ¬ specRule2 p.liq p.mcap p.priceChange ∧
      ¬ specRule3 p.liq p.priceChange ∧
      ¬ specRule4 p.liq p.mcap p.fdvD ∧
        specRule5 p.mcap p.priceChange p.fdvD) ∧
    ((analyze_rug_pull_risk p).tier = .lowToModerate ↔
      ¬ specRule1 p.liq p.mcap p.priceChange ∧
      ¬ specRule2 p.liq p.mcap p.priceChange ∧
      ¬ specRule3 p.liq p.priceChange ∧
      ¬ specRule4 p.liq p.mcap p.fdvD ∧
      ¬ specRule5 p.mcap p.priceChange p.fdvD) := by
  simp only [analyze_rug_pull_risk, riskTierOf, specRule1, specRule2,
    specRule3, specRule4, specRule5]
  split_ifs with h1 h2 h3 h4 h5 <;> simp_all

/-- Claim C1 witness: the first-match characterisation instantiated at the
all-absent pair. -/
theorem riskTier_first_match_witness :
    ((analyze_rug_pull_risk emptyPair).tier = .low ↔
      specRule1 emptyPair.liq emptyPair.mcap emptyPair.priceChange) ∧
    ((analyze_rug_pull_risk emptyPair).tier = .moderate ↔
      ¬ specRule1 emptyPair.liq emptyPair.mcap emptyPair.priceChange ∧
        specRule2 emptyPair.liq emptyPair.mcap emptyPair.priceChange) ∧
    ((analyze_rug_pull_risk emptyPair).tier = .high ↔
      ¬ specRule1 emptyPair.liq emptyPair.mcap emptyPair.priceChange ∧
      ¬ specRule2 emptyPair.liq emptyPair.mcap emptyPair.priceChange ∧
        specRule3 emptyPair.liq emptyPair.priceChange) ∧
    ((analyze_rug_pull_risk emptyPair).tier = .critical ↔
      ¬ specRule1 emptyPair.liq emptyPair.mcap emptyPair.priceChange ∧
      ¬ specRule2 emptyPair.liq emptyPair.mcap emptyPair.priceChange ∧
      ¬ specRule3 emptyPair.liq emptyPair.priceChange ∧
        specRule4 emptyPair.liq emptyPair.mcap emptyPair.fdvD) ∧
    ((analyze_rug_pull_risk emptyPair).tier = .extreme ↔
      ¬ specRule1 emptyPair.liq emptyPair.mcap emptyPair.priceChange ∧
      ¬ specRule2 emptyPair.liq emptyPair.mcap emptyPair.priceChange ∧
      ¬ specRule3 emptyPair.liq emptyPair.priceChange ∧
      ¬ specRule4 emptyPair.liq emptyPair.mcap emptyPair.fdvD ∧
        specRule5 emptyPair.mcap emptyPair.priceChange emptyPair.fdvD) ∧
    ((analyze_rug_pull_risk emptyPair).tier = .lowToModerate ↔
      ¬ specRule1 emptyPair.liq emptyPair.mcap emptyPair.priceChange ∧
      ¬ specRule2 emptyPair.liq emptyPair.mcap emptyPair.priceChange ∧
      ¬ specRule3 emptyPair.liq emptyPair.priceChange ∧
      ¬ specRule4 emptyPair.liq emptyPair.mcap emptyPair.fdvD ∧
      ¬ specRule5 emptyPair.mcap emptyPair.priceChange emptyPair.fdvD) :=
  riskTier_first_match emptyPair (by decide) (by decide) (by decide)
    (by decide)

/-- Claim C2 counterexample: on the pair with liquidity 3000, marketCap
50000, fdv 60000 and the price change absent, the classifier does not return
the Critical tier — rule 3 (liquidity < 10000 OR priceChange ≤ 0) fires
first. -/
theorem classify_spec_example_not_critical :
    (analyze_rug_pull_risk
      { liquidityUsd := some 3000, marketCap := some 50000,
        fdv := some 60000 }).tier ≠ .critical := by decide

/-- Claim C2 (amended): on the pair with liquidity 3000, marketCap 50000,
fdv 60000 and the price change absent, the classifier returns the High
tier. -/
theorem classify_spec_example_high :
    (analyze_rug_pull_risk
      { liquidityUsd := some 3000, marketCap := some 50000,
        fdv := some 60000 }).tier = .high := by decide

end CryptoScanner

namespace CryptoScanner

/-- Claim C3: the pair selector returns `none` on the empty collection; on a
nonempty collection it returns a member whose `liquidityUsd` (default 0) is
maximal, and ties go to the first such element in input order (it is the
first element whose key reaches the maximum). -/
theorem get_preferred_dex_selects (l : List TradingPair) :
    (l = [] → get_preferred_dex l = none) ∧
    (l ≠ [] → ∃ p, get_preferred_dex l = some p ∧ p ∈ l ∧
      (∀ q ∈ l, q.liq ≤ p.liq) ∧
      l.find? (fun q => decide (p.liq ≤ q.liq)) = some p) := by
  constructor
  · rintro rfl; rfl
  · intro hne
    cases l with
    | nil => exact absurd rfl hne
    | cons x xs =>
      cases h : firstMaxByLiq (x :: xs) with
      | none => rw [firstMaxByLiq_cons] at h; simp at h
      | some p =>
        exact ⟨p, by rw [get_preferred_dex_eq_firstMax, h],
          firstMaxByLiq_mem h, firstMaxByLiq_maximal h, firstMaxByLiq_find h⟩

/-- Claim C3 witness: on a three-element collection whose last two elements
tie for the maximal liquidity, the selector picks the earlier of the two. -/
theorem get_preferred_dex_selects_witness :
    ∃ p, get_preferred_dex
        [{ liquidityUsd := some 5 }, { liquidityUsd := some 7, dexId := some "a" },
         { liquidityUsd := some 7, dexId := some "b" }] = some p ∧
      p ∈ [({ liquidityUsd := some 5 } : TradingPair),
         { liquidityUsd := some 7, dexId := some "a" },
         { liquidityUsd := some 7, dexId := some "b" }] ∧
      (∀ q ∈ [({ liquidityUsd := some 5 } : TradingPair),
         { liquidityUsd := some 7, dexId := some "a" },
         { liquidityUsd := some 7, dexId := some "b" }], q.liq ≤ p.liq) ∧
      List.find? (fun q => decide (p.liq ≤ q.liq))
        [({ liquidityUsd := some 5 } : TradingPair),
         { liquidityUsd := some 7, dexId := some "a" },
         { liquidityUsd := some 7, dexId := some "b" }] = some p :=
  (get_preferred_dex_selects _).2 (by decide)

/-- Claim C4: every string matching the Ethereum pattern (`0x` + 40 hex) is
tagged "Ethereum", and no input is ever tagged "Polygon" — the Polygon branch
repeats the Ethereum pattern and is therefore unreachable. -/
theorem detect_blockchain_ethereum_shadows_polygon (s : String) :
    (matchesEthereum s = true → detect_blockchain s = "Ethereum") ∧
    detect_blockchain s ≠ "Polygon" := by
  constructor
  · intro h; simp [detect_blockchain, h]
  · unfold detect_blockchain
    split_ifs with h1 h2 h3 <;> simp

/-- Claim C4 witness: a concrete `0x` + 40-hex address is tagged "Ethereum"
and not "Polygon". -/
theorem detect_blockchain_ethereum_witness :
    detect_blockchain "0x52908400098527886E0F7030069857D2E4169EE7" =
      "Ethereum" ∧
    detect_blockchain "0x52908400098527886E0F7030069857D2E4169EE7" ≠
      "Polygon" :=
  ⟨(detect_blockchain_ethereum_shadows_polygon _).1 (by decide),
   (detect_blockchain_ethereum_shadows_polygon _).2⟩

/-- Claim C5: any pair whose four numeric factors are all absent or zero — in
particular the empty pair — is classified in the High tier. -/
theorem classify_all_zero_high (p : TradingPair)
    (hl : p.liq = 0) (hm : p.mcap = 0) (hp : p.priceChange = 0)
    (hf : p.fdvD = 0) :
    (analyze_rug_pull_risk p).tier = .high := by
  simp only [analyze_rug_pull_risk]
  rw [show riskTierOf p.liq p.priceChange p.mcap p.fdvD =
    riskTierOf 0 0 0 0 by rw [hl, hm, hp, hf]]
  decide

/-- Claim C5 witness: the empty pair is classified High. -/
theorem classify_all_zero_high_witness :
    (analyze_rug_pull_risk emptyPair).tier = .high :=
  classify_all_zero_high emptyPair rfl rfl rfl rfl

/-- Claim C6: the pair with liquidity 15000, marketCap 80000, price change
60 and fdv absent is classified Moderate — spec rule 1 fails and rule 2
matches (before rule 3 is reached). -/
theorem classify_moderate_example :
    (analyze_rug_pull_risk
      { liquidityUsd := some 15000, marketCap := some 80000,
        priceChangePercent := some 60 }).tier = .moderate ∧
    ¬ specRule1 15000 80000 60 ∧ specRule2 15000 80000 60 := by
  refine ⟨by decide, ?_, ?_⟩ <;> simp [specRule1, specRule2] <;> norm_num

end CryptoScanner

namespace CryptoScanner

/-- Claim C7 counterexample: the Reddit loop increments its count inside the
`try` once per yielded post, so a Reddit iteration that raises after yielding
two posts contributes 2, not 0 — with Twitter returning 3 the aggregate is
(3, 2), not (3, 0) as the claim requires of a failing source. -/
theorem mentions_partial_on_reddit_failure :
    fetch_social_media_mentions (Except.ok (some [(), (), ()]))
      ⟨[(), ()], true⟩ = (3, 2) ∧
    (⟨[(), ()], true⟩ : RedditStream).raised = true ∧
    (fetch_social_media_mentions (Except.ok (some [(), (), ()]))
      ⟨[(), ()], true⟩).2 ≠ 0 := by
  refine ⟨rfl, rfl, by decide⟩

/-- Claim C7 (amended): the aggregation is a total function (it never raises
to its caller) and the two sources are independent: the Twitter component is
the try-block count — 0 when the Twitter call raises or returns no data —
and the Reddit component is the number of posts yielded before the iterator
finishes or fails, hence 0 when it fails before yielding any post; either
way the other source's count is still collected. -/
theorem mentions_sources_isolated (twitter : TwitterResult)
    (reddit : RedditStream) :
    fetch_social_media_mentions twitter reddit =
      (twitterMentionCount twitter, reddit.posts.length) ∧
    (twitter = Except.error () →
      fetch_social_media_mentions twitter reddit = (0, reddit.posts.length)) ∧
    (reddit.posts = [] →
      fetch_social_media_mentions twitter reddit =
        (twitterMentionCount twitter, 0)) := by
  refine ⟨rfl, ?_, ?_⟩
  · rintro rfl; rfl
  · intro h
    simp [fetch_social_media_mentions, h]

/-- Claim C7 witness (the spec's own example): Twitter returns 3 tweets and
the Reddit source fails before yielding anything — the aggregate is
(3, 0). -/
theorem mentions_sources_isolated_witness :
    fetch_social_media_mentions (Except.ok (some [(), (), ()]))
      ⟨[], true⟩ = (3, 0) :=
  (mentions_sources_isolated (Except.ok (some [(), (), ()])) ⟨[], true⟩).2.2
    rfl

/-- Claim C8: the validation gate accepts exactly the union of the Ethereum
(`0x` + 40 hex) and Solana (32-44 base58-like) patterns, and a rejected
address gets the corrective "Invalid address format" reply while the user
state is left untouched and no pipeline output is produced (the
`invalidAddress` reply carries no pair, verdict or mention count). -/
theorem handle_token_address_gate (ud : UserData) (addr : String) (env : Env) :
    (validTokenAddress addr = true ↔
      (matchesEthereum addr = true ∨ matchesSolana addr = true)) ∧
    (validTokenAddress addr = false →
      handle_token_address ud addr env = (.invalidAddress, ud)) := by
  constructor
  · simp [validTokenAddress]
  · intro h
    simp [handle_token_address, h]

/-- Claim C8 witness: the malformed address "hello" is rejected — the handler
replies with the corrective prompt and leaves the user state unchanged, no
matter what the external sources would have returned. -/
theorem handle_token_address_gate_witness :
    handle_token_address ⟨some "analyze_token", none⟩ "hello"
      ⟨[{ liquidityUsd := some 3 }], Except.ok (some [()]), ⟨[()], false⟩⟩ =
      (.invalidAddress, ⟨some "analyze_token", none⟩) :=
  (handle_token_address_gate ⟨some "analyze_token", none⟩ "hello"
    ⟨[{ liquidityUsd := some 3 }], Except.ok (some [()]), ⟨[()], false⟩⟩).2
    (by decide)

/-- Claim C9: the pair selector does not mutate its input — in the
state-passing embedding the caller's collection after the call is exactly the
input collection (same pairs, same order, every field unchanged), and the
returned pair is the one `get_preferred_dex` computes from a fresh sorted
list. -/
theorem get_preferred_dex_no_mutation (l : List TradingPair) :
    get_preferred_dex_state l = (get_preferred_dex l, l) := by
  unfold get_preferred_dex_state get_preferred_dex
  split <;> rfl

/-- Claim C10: every address accepted by the validation gate is tagged
"Ethereum" or "Solana" by `detect_blockchain` — never "Binance", "Polygon"
or "Unknown" — since the gate is exactly the union of the detector's first
two patterns. -/
theorem valid_address_chain_tag (s : String)
    (h : validTokenAddress s = true) :
    detect_blockchain s = "Ethereum" ∨ detect_blockchain s = "Solana" := by
  unfold validTokenAddress at h
  cases heth : matchesEthereum s with
  | true => left; simp [detect_blockchain, heth]
  | false =>
    right
    rw [heth] at h
    simp only [Bool.false_or] at h
    simp [detect_blockchain, heth, h]

/-- Claim C10 witness: a concrete 32-character base58 address passes the gate
and is tagged "Solana". -/
theorem valid_address_chain_tag_witness :
    detect_blockchain "AAAAAAAAAAAAAAAAAAAAAAAAAAAAAAAA" = "Ethereum" ∨
    detect_blockchain "AAAAAAAAAAAAAAAAAAAAAAAAAAAAAAAA" = "Solana" :=
  valid_address_chain_tag "AAAAAAAAAAAAAAAAAAAAAAAAAAAAAAAA" (by decide)

end CryptoScanner
